import Mathlib

/-!
Shallow embedding of the doc-converter batch-processing core
(`multi_thread_processor.py`, `batch_processor.py`, `failed_conversions.py`,
`config.py`) and proofs about the frozen claims.

External collaborators (blob download/upload, the Aspose conversion service)
are modelled by a `Behavior` oracle per document: each collaborator call can
return success, return failure (Python `False` / `None`), or raise an
exception.  Wall-clock fields (`processing_time`, record timestamps) are not
modelled; the inter-batch `time.sleep` is modelled by counting sleep calls.
-/

/-- The per-item error kinds of `multi_thread_processor.py`. -/
inductive ErrorType where
  | DOWNLOAD_FAILED
  | COPY_FAILED
  | CONVERSION_FAILED
  | UPLOAD_FAILED
  | PROCESSING_ERROR
deriving DecidableEq, Repr

/-- Outcome of one collaborator call: normal success, normal failure
(`download_blob` returning `False`, `convert_to_pdf` returning `None`),
or a raised exception. -/
inductive CallResult where
  | ok
  | fail
  | raise
deriving DecidableEq, Repr

/-- The behaviour of the download / convert / upload collaborators for one
document. -/
structure Behavior where
  download : CallResult
  convert : CallResult
  upload : CallResult
deriving DecidableEq, Repr

/-- A collaborator behaviour in which every call succeeds. -/
def goodBeh : Behavior := { download := .ok, convert := .ok, upload := .ok }

/-- A collaborator behaviour in which `download_blob` returns `False`. -/
def dlFailBeh : Behavior := { download := .fail, convert := .ok, upload := .ok }

/-- A collaborator behaviour in which the download succeeds but
`convert_to_pdf` returns `None`. -/
def convFailBeh : Behavior := { download := .ok, convert := .fail, upload := .ok }

/-- The `result` dict built by `process_single_document_thread_safe`
(`multi_thread_processor.py` lines 102-110), minus the diagnostic
`thread_id`. -/
structure ItemResult where
  document_name : String
  filename : String
  success : Bool
  error_type : Option ErrorType
  error_message : Option String
  file_size : Nat
deriving DecidableEq, Repr

/-- Which local temporary artifacts of one item currently exist:
the downloaded original at `temp_file_path` and the produced file at
`converted_file_path` (a distinct path under `OUTPUT_DIR`,
see `document_converter.py` line 23). -/
structure FsState where
  tempExists : Bool
  convertedExists : Bool
deriving DecidableEq, Repr

/-- One row of the failed-conversions CSV (`failed_conversions.py`
lines 30-37), minus the wall-clock `timestamp`. -/
structure FailureRecord where
  filename : String
  error_type : Option ErrorType
  error_message : Option String
  file_size_bytes : Nat
  attempt_count : Nat
deriving DecidableEq, Repr

/-- The configuration constants of `config.py` consumed by the core. -/
structure Config where
  ENABLE_MULTI_THREADING : Bool
  MAX_WORKER_THREADS : Nat
  MIN_FILES_FOR_MULTI_THREADING : Nat
  ENABLE_BATCH_PROCESSING : Bool
  BATCH_SIZE : Nat
  BATCH_DELAY_SECONDS : Nat
  ENABLE_PROGRESS_BARS : Bool
deriving DecidableEq, Repr

/-- The values assigned in `config.py` lines 52-59 and 67. -/
def defaultConfig : Config :=
  { ENABLE_MULTI_THREADING := true
    MAX_WORKER_THREADS := 10
    MIN_FILES_FOR_MULTI_THREADING := 4
    ENABLE_BATCH_PROCESSING := true
    BATCH_SIZE := 1000
    BATCH_DELAY_SECONDS := 5
    ENABLE_PROGRESS_BARS := true }

/-- `os.path.basename` on POSIX: the part after the last slash. -/
def basename (p : String) : String :=
  String.mk ((p.toList.reverse.takeWhile (fun c => c ≠ '/')).reverse)

/-- The extension component of `os.path.splitext` applied to a basename:
everything from the last dot on, except that leading dots do not start an
extension (CPython `genericpath._splitext`). -/
def splitextExt (b : String) : String :=
  let rest := b.toList.dropWhile (fun c => c = '.')
  if rest.any (fun c => c = '.') then
    String.mk ('.' :: (rest.reverse.takeWhile (fun c => c ≠ '.')).reverse)
  else ""

/-- Python `str.lower`, restricted to ASCII as used on extensions. -/
def strLower (s : String) : String := String.mk (s.toList.map Char.toLower)

/-- The extensions handled by the copy-as-is branch
(`multi_thread_processor.py` line 141). -/
def copyAsIsExts : List String := [".pdf", ".tif", ".tiff"]

/-- The initial `result` dict of `process_single_document_thread_safe`.
`file_size` is sampled from `temp_file_path` before the download
(lines 121-126), so it is always 0. -/
def initResult (document_name filename : String) : ItemResult :=
  { document_name := document_name
    filename := filename
    success := false
    error_type := none
    error_message := none
    file_size := 0 }

/-- `DocumentConverter.cleanup_temp_files`: removes the file if it exists,
swallowing any error; afterwards the file is absent. -/
def cleanup_temp_files (_present : Bool) : Bool := false

/-- Lines 167-228 of `multi_thread_processor.py`: upload the converted file,
then (on upload success only) the cleanup block that deletes the downloaded
original and the converted file.  `Except.error` is a raised exception,
carrying the artifact state at the raise point. -/
def uploadAndCleanup (beh : Behavior) (result : ItemResult) (fs : FsState) :
    Except FsState (ItemResult × FsState) :=
  match beh.upload with
  | .raise => .error fs
  | .fail =>
      .ok ({ result with
              error_type := some ErrorType.UPLOAD_FAILED
              error_message := some ("[FAILED] Failed to upload processed file for "
                ++ result.filename ++ " to destination") }, fs)
  | .ok =>
      let result := { result with success := true }
      -- lines 207-223: delete the downloaded original, then the converted
      -- file if it still exists
      let fs := { fs with tempExists := cleanup_temp_files fs.tempExists }
      let fs :=
        if fs.convertedExists then
          { fs with convertedExists := cleanup_temp_files fs.convertedExists }
        else fs
      .ok (result, fs)

/-- The `try` block of `process_single_document_thread_safe`
(`multi_thread_processor.py` lines 112-228).  `Except.error fs` means an
exception escaped the block with local artifacts in state `fs`. -/
def tryBlock (beh : Behavior) (document_name : String) :
    Except FsState (ItemResult × FsState) :=
  let filename := basename document_name
  let file_ext := strLower (splitextExt filename)
  let result := initResult document_name filename
  let fs0 : FsState := { tempExists := false, convertedExists := false }
  match beh.download with
  | .raise => .error fs0
  | .fail =>
      .ok ({ result with
              error_type := some ErrorType.DOWNLOAD_FAILED
              error_message := some ("[FAILED] Failed to download " ++ filename
                ++ " from source") }, fs0)
  | .ok =>
      let fs1 : FsState := { fs0 with tempExists := true }
      if file_ext ∈ copyAsIsExts then
        match beh.convert with
        | .raise => .error fs1
        | .fail =>
            let fileType := if file_ext = ".pdf" then "PDF" else "TIF"
            .ok ({ result with
                    error_type := some ErrorType.COPY_FAILED
                    error_message := some ("[FAILED] Failed to copy " ++ fileType
                      ++ " file " ++ filename) }, fs1)
        | .ok => uploadAndCleanup beh result { fs1 with convertedExists := true }
      else
        match beh.convert with
        | .raise => .error fs1
        | .fail =>
            .ok ({ result with
                    error_type := some ErrorType.CONVERSION_FAILED
                    error_message := some ("[FAILED] Failed to convert " ++ filename) }, fs1)
        | .ok => uploadAndCleanup beh result { fs1 with convertedExists := true }

/-- `process_single_document_thread_safe` (lines 83-237): the try block with
its `except Exception` handler, which turns any escaped exception into a
`PROCESSING_ERROR` result (the exception text is abstracted away). -/
def process_single_document_thread_safe (beh : Behavior) (document_name : String) :
    ItemResult × FsState :=
  match tryBlock beh document_name with
  | .ok r => r
  | .error fs =>
      let filename := basename document_name
      ({ initResult document_name filename with
          error_type := some ErrorType.PROCESSING_ERROR
          error_message := some ("Error processing document " ++ filename) }, fs)

/-- `FailedConversionsTracker.add_failed_conversion` (lines 26-44): appends
one record; `file_size_bytes or 0` maps a missing size to 0. -/
def add_failed_conversion (records : List FailureRecord) (filename : String)
    (error_type : Option ErrorType) (error_message : Option String)
    (file_size_bytes : Option Nat) (attempt_count : Nat) : List FailureRecord :=
  records ++ [{ filename := filename
                error_type := error_type
                error_message := error_message
                file_size_bytes := match file_size_bytes with | none => 0 | some n => n
                attempt_count := attempt_count }]

/-- The `results` dict of `process_documents_parallel` and
`_process_documents_sequential`, minus the wall-clock `processing_time`. -/
structure ParallelResults where
  total_documents : Nat
  successful_conversions : Nat
  failed_conversions : Nat
  thread_count : Nat
deriving DecidableEq, Repr

/-- The `as_completed` aggregation loop of `process_documents_parallel`
(lines 248-280), determinized to submission order: one future per document,
a success increments `successful_conversions`, anything else increments
`failed_conversions` and appends one tracker record built from the item
result. -/
def parallelLoop (behOf : String → Behavior) :
    List String → Nat → Nat → List FailureRecord → Nat × Nat × List FailureRecord
  | [], succ, failed, records => (succ, failed, records)
  | d :: rest, succ, failed, records =>
      let r := (process_single_document_thread_safe (behOf d) d).1
      if r.success then
        parallelLoop behOf rest (succ + 1) failed records
      else
        parallelLoop behOf rest succ (failed + 1)
          (add_failed_conversion records r.filename r.error_type r.error_message
            (some r.file_size) 1)

/-- The per-document loop of `_process_documents_sequential`
(`multi_thread_processor.py` lines 340-479): same download / convert /
upload sequence, with failures recorded inline and any exception recorded
as `PROCESSING_ERROR`; the best-effort `file_size` is always 0. -/
def sequentialLoop (behOf : String → Behavior) :
    List String → Nat → Nat → List FailureRecord → Nat × Nat × List FailureRecord
  | [], succ, failed, records => (succ, failed, records)
  | d :: rest, succ, failed, records =>
      let filename := basename d
      let file_ext := strLower (splitextExt filename)
      let beh := behOf d
      match beh.download with
      | .raise =>
          sequentialLoop behOf rest succ (failed + 1)
            (add_failed_conversion records filename (some ErrorType.PROCESSING_ERROR)
              (some ("Error processing document " ++ filename)) (some 0) 1)
      | .fail =>
          sequentialLoop behOf rest succ (failed + 1)
            (add_failed_conversion records filename (some ErrorType.DOWNLOAD_FAILED)
              (some ("[FAILED] Failed to download " ++ filename ++ " from source"))
              (some 0) 1)
      | .ok =>
        match beh.convert with
        | .raise =>
            sequentialLoop behOf rest succ (failed + 1)
              (add_failed_conversion records filename (some ErrorType.PROCESSING_ERROR)
                (some ("Error processing document " ++ filename)) (some 0) 1)
        | .fail =>
            if file_ext ∈ copyAsIsExts then
              let fileType := if file_ext = ".pdf" then "PDF" else "TIF"
              sequentialLoop behOf rest succ (failed + 1)
                (add_failed_conversion records filename (some ErrorType.COPY_FAILED)
                  (some ("[FAILED] Failed to copy " ++ fileType ++ " file " ++ filename))
                  (some 0) 1)
            else
              sequentialLoop behOf rest succ (failed + 1)
                (add_failed_conversion records filename (some ErrorType.CONVERSION_FAILED)
                  (some ("[FAILED] Failed to convert " ++ filename)) (some 0) 1)
        | .ok =>
          match beh.upload with
          | .raise =>
              sequentialLoop behOf rest succ (failed + 1)
                (add_failed_conversion records filename (some ErrorType.PROCESSING_ERROR)
                  (some ("Error processing document " ++ filename)) (some 0) 1)
          | .fail =>
              sequentialLoop behOf rest succ (failed + 1)
                (add_failed_conversion records filename (some ErrorType.UPLOAD_FAILED)
                  (some ("[FAILED] Failed to upload processed file for " ++ filename
                    ++ " to destination")) (some 0) 1)
          | .ok => sequentialLoop behOf rest (succ + 1) failed records

/-- `_process_documents_sequential` (lines 300-496): single-threaded pass,
`thread_count` reported as 1. -/
def process_documents_sequential (behOf : String → Behavior) (docs : List String)
    (records : List FailureRecord) : ParallelResults × List FailureRecord :=
  let out := sequentialLoop behOf docs 0 0 records
  ({ total_documents := docs.length
     successful_conversions := out.1
     failed_conversions := out.2.1
     thread_count := 1 }, out.2.2)

/-- `process_documents_parallel` (lines 30-298): falls back to the sequential
path when multi-threading is disabled or there are fewer documents than
`MIN_FILES_FOR_MULTI_THREADING`; otherwise reports
`thread_count = min MAX_WORKER_THREADS (number of documents)` and aggregates
the per-future outcomes. -/
def process_documents_parallel (cfg : Config) (behOf : String → Behavior)
    (docs : List String) (records : List FailureRecord) :
    ParallelResults × List FailureRecord :=
  if cfg.ENABLE_MULTI_THREADING = false ∨
      docs.length < cfg.MIN_FILES_FOR_MULTI_THREADING then
    process_documents_sequential behOf docs records
  else
    let out := parallelLoop behOf docs 0 0 records
    ({ total_documents := docs.length
       successful_conversions := out.1
       failed_conversions := out.2.1
       thread_count := min cfg.MAX_WORKER_THREADS docs.length }, out.2.2)

/-- One entry of `results['batch_results']` (`batch_processor.py`
lines 111-118), minus the wall-clock `processing_time`. -/
structure BatchInfo where
  batch_num : Nat
  documents_processed : Nat
  successful_conversions : Nat
  failed_conversions : Nat
  threads_used : Nat
deriving DecidableEq, Repr

/-- The `results` dict of `process_documents_in_batches` (lines 78-85),
minus the wall-clock `processing_time`. -/
structure BatchResults where
  total_documents : Nat
  total_batches : Nat
  successful_conversions : Nat
  failed_conversions : Nat
  batch_results : List BatchInfo
deriving DecidableEq, Repr

/-- Observable outcome of one `process_documents_in_batches` call:
the returned value (a plain parallel-pass dict when batching is disabled,
a batch dict otherwise) or a propagated exception; plus how many batches
were started, how many inter-batch sleeps ran, whether the overall
progress bar was closed, and the tracker contents. -/
structure BatchRun where
  outcome : Except Unit (ParallelResults ⊕ BatchResults)
  batchesStarted : Nat
  sleeps : Nat
  overallBarClosed : Bool
  tracker : List FailureRecord
deriving Repr

/-- The `for batch_num in range(num_batches)` loop of
`process_documents_in_batches` (lines 90-152).  `fault batch_num = true`
models an unexpected infrastructure-level exception raised while working on
that batch (before its per-item outcomes are aggregated); the `except`
clause at lines 154-156 re-raises it. -/
def batchLoop (cfg : Config) (behOf : String → Behavior) (fault : Nat → Bool)
    (docs : List String) (num_batches : Nat) :
    List Nat → BatchResults → List FailureRecord → Nat → Nat →
    Except Unit BatchResults × Nat × Nat × List FailureRecord
  | [], acc, records, started, sleeps => (.ok acc, started, sleeps, records)
  | batch_num :: rest, acc, records, started, sleeps =>
      if fault batch_num then (.error (), started + 1, sleeps, records)
      else
        let batch_start := batch_num * cfg.BATCH_SIZE
        let batch_end := min (batch_start + cfg.BATCH_SIZE) docs.length
        let batch_documents := (docs.drop batch_start).take (batch_end - batch_start)
        let out := process_documents_parallel cfg behOf batch_documents records
        let batch_info : BatchInfo :=
          { batch_num := batch_num + 1
            documents_processed := batch_documents.length
            successful_conversions := out.1.successful_conversions
            failed_conversions := out.1.failed_conversions
            threads_used := out.1.thread_count }
        let acc :=
          { acc with
              successful_conversions :=
                acc.successful_conversions + out.1.successful_conversions
              failed_conversions := acc.failed_conversions + out.1.failed_conversions
              batch_results := acc.batch_results ++ [batch_info] }
        let sleeps := if batch_num < num_batches - 1 then sleeps + 1 else sleeps
        batchLoop cfg behOf fault docs num_batches rest acc out.2 (started + 1) sleeps

/-- `process_documents_in_batches` (`batch_processor.py` lines 28-182).
When batching is disabled (lines 43-47) it returns the single parallel pass
unchanged.  Otherwise it computes `num_batches` by ceiling division
(line 76), runs the batch loop, and the `finally` clause (lines 157-160)
closes the overall progress bar (created when progress bars are enabled and
tqdm is importable) on every exit path, including a propagated exception. -/
def process_documents_in_batches (cfg : Config) (behOf : String → Behavior)
    (fault : Nat → Bool) (tqdmAvailable : Bool) (docs : List String)
    (records : List FailureRecord) : BatchRun :=
  if cfg.ENABLE_BATCH_PROCESSING = false then
    let out := process_documents_parallel cfg behOf docs records
    { outcome := .ok (.inl out.1)
      batchesStarted := 0
      sleeps := 0
      overallBarClosed := false
      tracker := out.2 }
  else
    let total_documents := docs.length
    let barCreated := cfg.ENABLE_PROGRESS_BARS && tqdmAvailable
    let num_batches := (total_documents + cfg.BATCH_SIZE - 1) / cfg.BATCH_SIZE
    let init : BatchResults :=
      { total_documents := total_documents
        total_batches := num_batches
        successful_conversions := 0
        failed_conversions := 0
        batch_results := [] }
    let out := batchLoop cfg behOf fault docs num_batches
      (List.range num_batches) init records 0 0
    { outcome := out.1.map Sum.inr
      batchesStarted := out.2.1
      sleeps := out.2.2.1
      overallBarClosed := barCreated
      tracker := out.2.2.2 }

/-- The dict returned by `get_batch_processing_estimate` when batching is
disabled (lines 194-200): note it carries no `estimated_time_seconds`. -/
structure BatchEstimateDisabled where
  estimated_batches : Nat
  estimated_time_hours : ℚ
  estimated_time_days : ℚ
  memory_usage_mb : Nat
deriving DecidableEq, Repr

/-- The dict returned by `get_batch_processing_estimate` when batching is
enabled (lines 220-227). -/
structure BatchEstimate where
  estimated_batches : Nat
  estimated_time_seconds : ℚ
  estimated_time_hours : ℚ
  estimated_time_days : ℚ
  memory_usage_mb : Nat
  time_per_batch_seconds : ℚ
deriving DecidableEq, Repr

/-- `get_batch_processing_estimate` (`batch_processor.py` lines 184-227).
Python floats are modelled by exact rationals (every constant involved,
1.5 / 8 = 0.1875 in particular, is dyadic, so the float arithmetic here is
exact); `num_batches - 1` is Python int subtraction, hence `Int`. -/
def get_batch_processing_estimate (cfg : Config) (total_documents : Nat) :
    BatchEstimateDisabled ⊕ BatchEstimate :=
  if cfg.ENABLE_BATCH_PROCESSING = false then
    .inl { estimated_batches := 1
           estimated_time_hours := 0
           estimated_time_days := 0
           memory_usage_mb := 0 }
  else
    let num_batches := (total_documents + cfg.BATCH_SIZE - 1) / cfg.BATCH_SIZE
    let time_per_file_seconds : ℚ := (3 / 2) / 8
    let time_per_batch_seconds : ℚ := (cfg.BATCH_SIZE : ℚ) * time_per_file_seconds
    let total_processing_time_seconds : ℚ :=
      (num_batches : ℚ) * time_per_batch_seconds
        + (((num_batches : ℤ) - 1 : ℤ) : ℚ) * (cfg.BATCH_DELAY_SECONDS : ℚ)
    .inr { estimated_batches := num_batches
           estimated_time_seconds := total_processing_time_seconds
           estimated_time_hours := total_processing_time_seconds / 3600
           estimated_time_days := total_processing_time_seconds / 3600 / 24
           memory_usage_mb := num_batches * 50
           time_per_batch_seconds := time_per_batch_seconds }

/-- `FailedConversionsTracker.get_failed_conversions_by_filename`
(`failed_conversions.py` lines 60-63): filters the stored records by
`failure['filename'] == filename`. -/
def get_failed_conversions_by_filename (records : List FailureRecord)
    (filename : String) : List FailureRecord :=
  records.filter (fun failure => failure.filename == filename)

/-- Executable substring test: `q` occurs contiguously in `hay`. -/
def strContainsSub (hay q : String) : Bool :=
  (List.range (hay.toList.length + 1)).any
    (fun i => q.toList.isPrefixOf (hay.toList.drop i))

/-- Modelled from the spec sentence "filter by ... filename substring":
returns the records whose filename contains the query as a substring.
Used only to compare the spec's wording against the code. -/
def filter_by_filename_substring (records : List FailureRecord)
    (query : String) : List FailureRecord :=
  records.filter (fun failure => strContainsSub failure.filename query)

/-- `True` iff an `Except` value is a normal return rather than a raised
exception. -/
def exceptIsOk {ε α : Type} : Except ε α → Bool
  | .ok _ => true
  | .error _ => false

/-- The batch slices the loop at `batch_processor.py` lines 90-93 actually
processes: slice `i` is `documents[i*B : min(i*B+B, N)]`. -/
def batchSlices (B : Nat) (docs : List String) : List (List String) :=
  (List.range ((docs.length + B - 1) / B)).map
    (fun i => (docs.drop (i * B)).take (min (i * B + B) docs.length - i * B))

/-- Whether one item ends in success under the given collaborator
behaviour. -/
def itemSuccess (behOf : String → Behavior) (d : String) : Bool :=
  (process_single_document_thread_safe (behOf d) d).1.success

/-- The tracker record the aggregation loop appends for one item, if that
item fails (`multi_thread_processor.py` lines 258-265). -/
def itemFailureRecord (behOf : String → Behavior) (d : String) :
    Option FailureRecord :=
  let r := (process_single_document_thread_safe (behOf d) d).1
  if r.success then none
  else some { filename := r.filename
              error_type := r.error_type
              error_message := r.error_message
              file_size_bytes := r.file_size
              attempt_count := 1 }

/-- The documents slice the batch loop hands to batch `i`. -/
def batchDocsOf (cfg : Config) (docs : List String) (i : Nat) : List String :=
  (docs.drop (i * cfg.BATCH_SIZE)).take
    (min (i * cfg.BATCH_SIZE + cfg.BATCH_SIZE) docs.length - i * cfg.BATCH_SIZE)

/-- The `batch_info` entry the loop stores for batch `i`. -/
def batchInfoOf (cfg : Config) (behOf : String → Behavior) (docs : List String)
    (i : Nat) : BatchInfo :=
  let bd := batchDocsOf cfg docs i
  let br := (process_documents_parallel cfg behOf bd []).1
  { batch_num := i + 1
    documents_processed := bd.length
    successful_conversions := br.successful_conversions
    failed_conversions := br.failed_conversions
    threads_used := br.thread_count }

/-- The ceiling-division batch count of `batch_processor.py` line 76. -/
def num_batches_of (cfg : Config) (docs : List String) : Nat :=
  (docs.length + cfg.BATCH_SIZE - 1) / cfg.BATCH_SIZE

/-- The tracker record produced for an item whose download returns
`False`. -/
def dlFailRecordOf (d : String) : FailureRecord :=
  { filename := basename d
    error_type := some ErrorType.DOWNLOAD_FAILED
    error_message := some ("[FAILED] Failed to download " ++ basename d
      ++ " from source")
    file_size_bytes := 0
    attempt_count := 1 }

/-- A stored record used to exhibit the filename-filter behaviour. -/
def cexRecord : FailureRecord :=
  { filename := "abc.pdf"
    error_type := some ErrorType.DOWNLOAD_FAILED
    error_message := some "m"
    file_size_bytes := 0
    attempt_count := 1 }

theorem itemFailureRecord_of_success {behOf : String → Behavior} {d : String}
    (h : itemSuccess behOf d = true) : itemFailureRecord behOf d = none := by
  simp [itemFailureRecord, itemSuccess] at *
  simp [h]

theorem itemFailureRecord_of_failure {behOf : String → Behavior} {d : String}
    (h : itemSuccess behOf d = false) :
    itemFailureRecord behOf d =
      some { filename := (process_single_document_thread_safe (behOf d) d).1.filename
             error_type := (process_single_document_thread_safe (behOf d) d).1.error_type
             error_message := (process_single_document_thread_safe (behOf d) d).1.error_message
             file_size_bytes := (process_single_document_thread_safe (behOf d) d).1.file_size
             attempt_count := 1 } := by
  simp [itemFailureRecord, itemSuccess] at *
  simp [h]

/-- Closed form of the parallel aggregation loop: successes and failures are
the counts of succeeding and failing items, and the tracker gains exactly
one record per failing item, in order. -/
theorem parallelLoop_eq (behOf : String → Behavior) (docs : List String) :
    ∀ (s f : Nat) (recs : List FailureRecord),
    parallelLoop behOf docs s f recs =
      (s + (docs.filter (fun d => itemSuccess behOf d)).length,
       f + (docs.filter (fun d => !itemSuccess behOf d)).length,
       recs ++ docs.filterMap (itemFailureRecord behOf)) := by
  induction docs with
  | nil => intro s f recs; simp [parallelLoop]
  | cons d rest ih =>
      intro s f recs
      rw [parallelLoop]
      cases h : (process_single_document_thread_safe (behOf d) d).1.success
      · have hs : itemSuccess behOf d = false := h
        have hrec := itemFailureRecord_of_failure hs
        simp only [Bool.false_eq_true, if_false, ih, List.filter_cons, hs,
          Bool.not_false, if_true, Bool.false_eq_true, if_false,
          List.filterMap_cons, hrec, add_failed_conversion]
        refine Prod.ext ?_ (Prod.ext ?_ ?_)
        · simp
        · simp; omega
        · simp
      · have hs : itemSuccess behOf d = true := h
        have hrec := itemFailureRecord_of_success hs
        simp only [if_true, ih, List.filter_cons, hs, Bool.not_true,
          Bool.false_eq_true, if_false, if_true, List.filterMap_cons, hrec]
        refine Prod.ext ?_ (Prod.ext ?_ ?_)
        · simp; omega
        · simp
        · simp

/-- One step of the sequential loop produces the same per-item outcome and
tracker record as the thread-safe item processor: success iff download,
convert and upload all succeed, otherwise one record with the same error
kind, message and size. -/
theorem sequentialLoop_cons (behOf : String → Behavior) (d : String)
    (rest : List String) (s f : Nat) (recs : List FailureRecord) :
    sequentialLoop behOf (d :: rest) s f recs =
      match itemFailureRecord behOf d with
      | none => sequentialLoop behOf rest (s + 1) f recs
      | some rec => sequentialLoop behOf rest s (f + 1) (recs ++ [rec]) := by
  rcases hbeh : behOf d with ⟨bd, bc, bu⟩
  rw [sequentialLoop]
  simp only [hbeh]
  by_cases hext : strLower (splitextExt (basename d)) ∈ copyAsIsExts <;>
    cases bd <;> cases bc <;> cases bu <;>
      simp [itemFailureRecord, process_single_document_thread_safe, tryBlock,
        uploadAndCleanup, hbeh, hext, add_failed_conversion, initResult,
        cleanup_temp_files]

/-- Closed form of the sequential loop: identical to `parallelLoop_eq`. -/
theorem sequentialLoop_eq (behOf : String → Behavior) (docs : List String) :
    ∀ (s f : Nat) (recs : List FailureRecord),
    sequentialLoop behOf docs s f recs =
      (s + (docs.filter (fun d => itemSuccess behOf d)).length,
       f + (docs.filter (fun d => !itemSuccess behOf d)).length,
       recs ++ docs.filterMap (itemFailureRecord behOf)) := by
  induction docs with
  | nil => intro s f recs; simp [sequentialLoop]
  | cons d rest ih =>
      intro s f recs
      rw [sequentialLoop_cons]
      cases h : itemSuccess behOf d
      · have hrec := itemFailureRecord_of_failure h
        simp only [hrec, ih, List.filter_cons, h, Bool.not_false,
          Bool.false_eq_true, if_false, if_true, List.filterMap_cons]
        refine Prod.ext ?_ (Prod.ext ?_ ?_)
        · simp
        · simp; omega
        · simp
      · have hrec := itemFailureRecord_of_success h
        simp only [hrec, ih, List.filter_cons, h, Bool.not_true,
          Bool.false_eq_true, if_false, if_true, List.filterMap_cons]
        refine Prod.ext ?_ (Prod.ext ?_ ?_)
        · simp; omega
        · simp
        · simp

/-- Closed form of `process_documents_parallel`: both the threaded and the
sequential path report `total_documents = docs.length`, count successes and
failures by item outcome, and append one tracker record per failing item;
only the reported `thread_count` differs between the two paths. -/
theorem process_documents_parallel_eq (cfg : Config) (behOf : String → Behavior)
    (docs : List String) (recs : List FailureRecord) :
    process_documents_parallel cfg behOf docs recs =
      ({ total_documents := docs.length
         successful_conversions := (docs.filter (fun d => itemSuccess behOf d)).length
         failed_conversions := (docs.filter (fun d => !itemSuccess behOf d)).length
         thread_count :=
           if cfg.ENABLE_MULTI_THREADING = false ∨
               docs.length < cfg.MIN_FILES_FOR_MULTI_THREADING then 1
           else min cfg.MAX_WORKER_THREADS docs.length },
       recs ++ docs.filterMap (itemFailureRecord behOf)) := by
  rw [process_documents_parallel]
  by_cases h : cfg.ENABLE_MULTI_THREADING = false ∨
      docs.length < cfg.MIN_FILES_FOR_MULTI_THREADING
  · rw [if_pos h, if_pos h, process_documents_sequential, sequentialLoop_eq]
    simp
  · rw [if_neg h, if_neg h, parallelLoop_eq]
    simp

/-- Unfolding one non-faulting step of the batch loop. -/
theorem batchLoop_cons (cfg : Config) (behOf : String → Behavior)
    (fault : Nat → Bool) (docs : List String) (nb i : Nat) (rest : List Nat)
    (acc : BatchResults) (recs : List FailureRecord) (started sleeps : Nat)
    (hf : fault i = false) :
    batchLoop cfg behOf fault docs nb (i :: rest) acc recs started sleeps =
      batchLoop cfg behOf fault docs nb rest
        { acc with
            successful_conversions := acc.successful_conversions +
              (batchInfoOf cfg behOf docs i).successful_conversions
            failed_conversions := acc.failed_conversions +
              (batchInfoOf cfg behOf docs i).failed_conversions
            batch_results := acc.batch_results ++ [batchInfoOf cfg behOf docs i] }
        ((process_documents_parallel cfg behOf (batchDocsOf cfg docs i) recs).2)
        (started + 1) (if i < nb - 1 then sleeps + 1 else sleeps) := by
  rw [batchLoop]
  rw [if_neg (by simp [hf])]
  simp only [process_documents_parallel_eq, batchInfoOf, batchDocsOf]

/-- With no infrastructure fault the batch loop drains every batch: it
returns `ok`, starts one batch per loop index, and accumulates exactly one
`batch_info` per batch, the job counters incremented by the per-batch
counters. -/
theorem batchLoop_noFault (cfg : Config) (behOf : String → Behavior)
    (docs : List String) (nb : Nat) (l : List Nat) :
    ∀ (acc : BatchResults) (recs : List FailureRecord) (started sleeps : Nat),
    ∃ sl2 recs2,
    batchLoop cfg behOf (fun _ => false) docs nb l acc recs started sleeps =
      (Except.ok
        { acc with
            successful_conversions := acc.successful_conversions +
              (l.map (fun i => (batchInfoOf cfg behOf docs i).successful_conversions)).sum
            failed_conversions := acc.failed_conversions +
              (l.map (fun i => (batchInfoOf cfg behOf docs i).failed_conversions)).sum
            batch_results := acc.batch_results ++ l.map (batchInfoOf cfg behOf docs) },
        started + l.length, sl2, recs2) := by
  induction l with
  | nil =>
      intro acc recs started sleeps
      exact ⟨sleeps, recs, by simp [batchLoop]⟩
  | cons i rest ih =>
      intro acc recs started sleeps
      rw [batchLoop_cons cfg behOf _ docs nb i rest acc recs started sleeps rfl]
      obtain ⟨sl2, recs2, hrec⟩ := ih _ _ (started + 1)
        (if i < nb - 1 then sleeps + 1 else sleeps)
      refine ⟨sl2, recs2, hrec.trans ?_⟩
      simp only [List.map_cons, List.sum_cons, List.length_cons, Nat.add_assoc,
        List.append_assoc, List.singleton_append]
      rw [Nat.add_comm 1 rest.length]

/-- If every batch before `i` runs clean and batch `i` faults, the loop
stops inside batch `i`: it raises, having started exactly the batches up to
and including `i`. -/
theorem batchLoop_fault (cfg : Config) (behOf : String → Behavior)
    (fault : Nat → Bool) (docs : List String) (nb : Nat) (i : Nat)
    (l2 : List Nat) (hi : fault i = true) (l1 : List Nat) :
    ∀ (acc : BatchResults) (recs : List FailureRecord) (started sleeps : Nat),
    (∀ j ∈ l1, fault j = false) →
    ∃ sl2 recs2,
    batchLoop cfg behOf fault docs nb (l1 ++ i :: l2) acc recs started sleeps =
      (Except.error (), started + l1.length + 1, sl2, recs2) := by
  induction l1 with
  | nil =>
      intro acc recs started sleeps _
      refine ⟨sleeps, recs, ?_⟩
      rw [List.nil_append, batchLoop, if_pos (by simp [hi])]
      simp
  | cons j rest ih =>
      intro acc recs started sleeps hcl
      rw [List.cons_append,
        batchLoop_cons cfg behOf fault docs nb j (rest ++ i :: l2) acc recs
          started sleeps (hcl j (List.mem_cons_self j rest))]
      obtain ⟨sl2, recs2, hrec⟩ := ih _ _ (started + 1)
        (if j < nb - 1 then sleeps + 1 else sleeps)
        (fun k hk => hcl k (List.mem_cons_of_mem j hk))
      refine ⟨sl2, recs2, hrec.trans ?_⟩
      simp only [List.length_cons]
      refine Prod.ext rfl (Prod.ext ?_ rfl)
      show started + 1 + rest.length + 1 = started + (rest.length + 1) + 1
      omega

/-- Ceiling division covers all items: `ceil(N/B) * B ≥ N`. -/
theorem ceilDiv_mul_ge (N B : Nat) (hB : 0 < B) : N ≤ ((N + B - 1) / B) * B := by
  rcases Nat.eq_zero_or_pos N with hN | hN
  · simp [hN]
  · rw [show N + B - 1 = (N - 1) + B by omega, Nat.add_div_right _ hB]
    have h1 := Nat.div_add_mod (N - 1) B
    have h2 : (N - 1) % B < B := Nat.mod_lt _ hB
    rw [Nat.mul_comm] at h1
    rw [Nat.add_mul, Nat.one_mul]
    generalize (N - 1) / B * B = t at h1 ⊢
    omega

/-- All batches but the last start strictly inside the list:
`(ceil(N/B) - 1) * B < N` when `N > 0`. -/
theorem ceilDiv_pred_mul_lt (N B : Nat) (hB : 0 < B) (hN : 0 < N) :
    (((N + B - 1) / B) - 1) * B < N := by
  rw [show N + B - 1 = (N - 1) + B by omega, Nat.add_div_right _ hB,
    Nat.add_sub_cancel]
  have h1 := Nat.div_mul_le_self (N - 1) B
  omega

/-- The slice the loop takes for batch `i` is just
`(docs.drop (i*B)).take B`. -/
theorem slice_take_eq (docs : List String) (B i : Nat) :
    (docs.drop (i * B)).take (min (i * B + B) docs.length - i * B) =
      (docs.drop (i * B)).take B := by
  rw [List.take_eq_take]
  simp only [List.length_drop]
  omega

/-- Concatenating the first `k` fixed-size slices yields the first `k*B`
items. -/
theorem slices_flatten_take (B : Nat) (docs : List String) (k : Nat) :
    ((List.range k).map (fun i => (docs.drop (i * B)).take B)).flatten =
      docs.take (k * B) := by
  induction k with
  | zero => simp
  | succ k ih =>
      rw [List.range_succ, List.map_append, List.flatten_append, ih]
      simp only [List.map_cons, List.map_nil, List.flatten_cons,
        List.flatten_nil, List.append_nil]
      rw [Nat.succ_mul, List.take_add]

/-- The batch slices, written in their fixed-size form. -/
theorem batchSlices_eq (B : Nat) (docs : List String) :
    batchSlices B docs =
      (List.range ((docs.length + B - 1) / B)).map
        (fun i => (docs.drop (i * B)).take B) := by
  exact List.map_congr_left (fun i _ => slice_take_eq docs B i)

/-- The batch slices partition the document list: their concatenation is the
original list. -/
theorem batchSlices_flatten (B : Nat) (docs : List String) (hB : 0 < B) :
    (batchSlices B docs).flatten = docs := by
  rw [batchSlices_eq, slices_flatten_take]
  exact List.take_of_length_le (ceilDiv_mul_ge docs.length B hB)

/-- The batch sizes sum to the total number of documents. -/
theorem batchSlices_sum (B : Nat) (docs : List String) (hB : 0 < B) :
    ((batchSlices B docs).map List.length).sum = docs.length := by
  rw [← List.length_flatten, batchSlices_flatten B docs hB]

/-- There are exactly `ceil(N/B)` batch slices. -/
theorem batchSlices_length (B : Nat) (docs : List String) :
    (batchSlices B docs).length = (docs.length + B - 1) / B := by
  simp [batchSlices]

/-- The final batch slice has exactly the `N - B*(batchCount-1)` leftover
items. -/
theorem batchSlices_last (B : Nat) (docs : List String) (hB : 0 < B)
    (hN : 0 < docs.length) :
    ∃ last, (batchSlices B docs).getLast? = some last ∧
      last.length = docs.length - B * (((docs.length + B - 1) / B) - 1) := by
  have hge := ceilDiv_mul_ge docs.length B hB
  have hlt := ceilDiv_pred_mul_lt docs.length B hB hN
  obtain ⟨m, hm⟩ : ∃ m, (docs.length + B - 1) / B = m + 1 := by
    have hge2 := hge
    generalize hc : (docs.length + B - 1) / B = c at hge2 ⊢
    rcases Nat.eq_zero_or_pos c with h0 | hpos
    · exfalso; subst h0; simp only [Nat.zero_mul, Nat.le_zero] at hge2; omega
    · exact ⟨c - 1, by omega⟩
  refine ⟨(docs.drop (m * B)).take B, ?_, ?_⟩
  · rw [batchSlices_eq, hm, List.range_succ, List.map_append]
    simp only [List.map_cons, List.map_nil]
    exact List.getLast?_concat _
  · rw [hm] at hge hlt
    simp only [Nat.add_sub_cancel] at hlt
    simp only [List.length_take, List.length_drop, hm, Nat.add_sub_cancel]
    rw [Nat.add_mul, Nat.one_mul] at hge
    rw [Nat.mul_comm B m]
    generalize m * B = t at hge hlt ⊢
    omega

/-- Pointwise sums of two maps add to the sum of the pointwise sum. -/
theorem sum_map_add {α : Type} (f g : α → Nat) (l : List α) :
    (l.map f).sum + (l.map g).sum = (l.map (fun x => f x + g x)).sum := by
  induction l with
  | nil => rfl
  | cons x rest ih => simp only [List.map_cons, List.sum_cons]; omega

/-- Each stored batch entry balances: successes plus failures equal the
number of documents handed to that batch. -/
theorem batchInfoOf_balance (cfg : Config) (behOf : String → Behavior)
    (docs : List String) (i : Nat) :
    (batchInfoOf cfg behOf docs i).successful_conversions +
        (batchInfoOf cfg behOf docs i).failed_conversions =
      (batchInfoOf cfg behOf docs i).documents_processed := by
  simp only [batchInfoOf, process_documents_parallel_eq]
  exact (List.length_eq_length_filter_add (fun d => itemSuccess behOf d)).symm

/-- Closed form of a fault-free `process_documents_in_batches` run with
batching enabled. -/
theorem process_in_batches_noFault (cfg : Config) (behOf : String → Behavior)
    (tq : Bool) (docs : List String) (recs : List FailureRecord)
    (hE : cfg.ENABLE_BATCH_PROCESSING = true) :
    ∃ sl2 recs2,
    process_documents_in_batches cfg behOf (fun _ => false) tq docs recs =
      { outcome := Except.ok (Sum.inr
          { total_documents := docs.length
            total_batches := num_batches_of cfg docs
            successful_conversions :=
              ((List.range (num_batches_of cfg docs)).map
                (fun i => (batchInfoOf cfg behOf docs i).successful_conversions)).sum
            failed_conversions :=
              ((List.range (num_batches_of cfg docs)).map
                (fun i => (batchInfoOf cfg behOf docs i).failed_conversions)).sum
            batch_results :=
              (List.range (num_batches_of cfg docs)).map (batchInfoOf cfg behOf docs) })
        batchesStarted := num_batches_of cfg docs
        sleeps := sl2
        overallBarClosed := cfg.ENABLE_PROGRESS_BARS && tq
        tracker := recs2 } := by
  obtain ⟨sl2, recs2, hrec⟩ := batchLoop_noFault cfg behOf docs
    (num_batches_of cfg docs) (List.range (num_batches_of cfg docs))
    { total_documents := docs.length
      total_batches := num_batches_of cfg docs
      successful_conversions := 0
      failed_conversions := 0
      batch_results := [] } recs 0 0
  refine ⟨sl2, recs2, ?_⟩
  rw [process_documents_in_batches, if_neg (by simp [hE])]
  show
    (let out := batchLoop cfg behOf (fun _ => false) docs
      (num_batches_of cfg docs) (List.range (num_batches_of cfg docs))
      { total_documents := docs.length
        total_batches := num_batches_of cfg docs
        successful_conversions := 0
        failed_conversions := 0
        batch_results := [] } recs 0 0
     ({ outcome := out.1.map Sum.inr
        batchesStarted := out.2.1
        sleeps := out.2.2.1
        overallBarClosed := cfg.ENABLE_PROGRESS_BARS && tq
        tracker := out.2.2.2 } : BatchRun)) = _
  rw [hrec]
  simp [Except.map, List.length_range]

/-- An item whose collaborators all succeed ends in success. -/
theorem itemSuccess_of_good {behOf : String → Behavior} {d : String}
    (h : behOf d = goodBeh) : itemSuccess behOf d = true := by
  unfold itemSuccess process_single_document_thread_safe tryBlock
  rw [h]
  by_cases hext : strLower (splitextExt (basename d)) ∈ copyAsIsExts <;>
    simp [hext, goodBeh, uploadAndCleanup, cleanup_temp_files]

/-- An item whose download returns `False` ends in failure and yields one
tracker record of kind `DOWNLOAD_FAILED`. -/
theorem item_of_dlFail {behOf : String → Behavior} {d : String}
    (h : behOf d = dlFailBeh) :
    itemSuccess behOf d = false ∧
    itemFailureRecord behOf d =
      some { filename := basename d
             error_type := some ErrorType.DOWNLOAD_FAILED
             error_message := some ("[FAILED] Failed to download " ++ basename d
               ++ " from source")
             file_size_bytes := 0
             attempt_count := 1 } := by
  constructor <;>
    simp [itemSuccess, itemFailureRecord, process_single_document_thread_safe,
      tryBlock, h, dlFailBeh, initResult]

/-- The batch slices are the slices handed out by the loop. -/
theorem batchSlices_eq_batchDocs (cfg : Config) (docs : List String) :
    batchSlices cfg.BATCH_SIZE docs =
      (List.range (num_batches_of cfg docs)).map (batchDocsOf cfg docs) := rfl

/-- C1: for every fault-free run (with a positive configured batch size),
the reported successes plus failures equal the total number of documents —
on the batching-disabled path directly, and on the batching path both at
job level and per batch, with the job totals equal to the sums of the
per-batch totals. -/
theorem C1_run_totals_balance (cfg : Config) (behOf : String → Behavior)
    (tq : Bool) (docs : List String) (recs : List FailureRecord)
    (hB : 0 < cfg.BATCH_SIZE) :
    ∃ v, (process_documents_in_batches cfg behOf (fun _ => false) tq docs recs).outcome
        = Except.ok v ∧
      (∀ p, v = Sum.inl p →
        p.successful_conversions + p.failed_conversions = p.total_documents ∧
        p.total_documents = docs.length) ∧
      (∀ b, v = Sum.inr b →
        b.successful_conversions + b.failed_conversions = b.total_documents ∧
        b.total_documents = docs.length ∧
        b.successful_conversions =
          (b.batch_results.map (fun bi => bi.successful_conversions)).sum ∧
        b.failed_conversions =
          (b.batch_results.map (fun bi => bi.failed_conversions)).sum ∧
        ∀ bi ∈ b.batch_results,
          bi.successful_conversions + bi.failed_conversions
            = bi.documents_processed) := by
  cases hE : cfg.ENABLE_BATCH_PROCESSING
  · rw [process_documents_in_batches, if_pos hE]
    refine ⟨Sum.inl (process_documents_parallel cfg behOf docs recs).1, rfl, ?_, ?_⟩
    · intro p hp
      cases hp
      rw [process_documents_parallel_eq]
      exact ⟨(List.length_eq_length_filter_add _).symm, rfl⟩
    · intro b hb
      exact absurd hb (by simp)
  · obtain ⟨sl2, recs2, hrun⟩ := process_in_batches_noFault cfg behOf tq docs recs hE
    rw [hrun]
    refine ⟨_, rfl, ?_, ?_⟩
    · intro p hp
      exact absurd hp (by simp)
    · intro b hb
      cases hb
      have hbal : ∀ i ∈ List.range (num_batches_of cfg docs),
          ((fun bi => bi.successful_conversions + bi.failed_conversions) ∘
            batchInfoOf cfg behOf docs) i =
          (List.length ∘ batchDocsOf cfg docs) i := by
        intro i _
        simpa [batchInfoOf] using batchInfoOf_balance cfg behOf docs i
      refine ⟨?_, rfl, by rw [List.map_map]; rfl, by rw [List.map_map]; rfl, ?_⟩
      · show ((List.range (num_batches_of cfg docs)).map
            (fun i => (batchInfoOf cfg behOf docs i).successful_conversions)).sum +
          ((List.range (num_batches_of cfg docs)).map
            (fun i => (batchInfoOf cfg behOf docs i).failed_conversions)).sum
          = docs.length
        rw [sum_map_add]
        have hs := batchSlices_sum cfg.BATCH_SIZE docs hB
        rw [batchSlices_eq_batchDocs, List.map_map] at hs
        rw [← hs]
        congr 1
        exact List.map_congr_left hbal
      · intro bi hbi
        obtain ⟨i, _, hbi2⟩ := List.mem_map.mp hbi
        cases hbi2
        exact batchInfoOf_balance cfg behOf docs i

/-- Witness for C1 at a concrete run. -/
theorem C1_run_totals_balance_witness :
    ∃ v, (process_documents_in_batches defaultConfig (fun _ => goodBeh)
        (fun _ => false) true ["a.pdf", "b.docx"] []).outcome = Except.ok v := by
  obtain ⟨v, hv, -, -⟩ := C1_run_totals_balance defaultConfig (fun _ => goodBeh)
    true ["a.pdf", "b.docx"] [] (by decide)
  exact ⟨v, hv⟩

/-- C2: with batching enabled and batch size `B > 0`, the run splits the
list into exactly `ceil(N/B)` contiguous ordered batches — slice `i` is
`documents[i*B : min((i+1)*B, N)]` — whose concatenation is the original
list, whose sizes sum to `N`, and whose final batch holds
`N - B*(batchCount-1)` items; the stored per-batch entries record exactly
these sizes. -/
theorem C2_batch_partitioning (cfg : Config) (behOf : String → Behavior)
    (tq : Bool) (docs : List String) (recs : List FailureRecord)
    (hB : 0 < cfg.BATCH_SIZE) (hE : cfg.ENABLE_BATCH_PROCESSING = true) :
    ∃ b, (process_documents_in_batches cfg behOf (fun _ => false) tq docs recs).outcome
        = Except.ok (Sum.inr b) ∧
      b.total_batches = (docs.length + cfg.BATCH_SIZE - 1) / cfg.BATCH_SIZE ∧
      b.batch_results.map (fun bi => bi.documents_processed)
        = (batchSlices cfg.BATCH_SIZE docs).map List.length ∧
      (batchSlices cfg.BATCH_SIZE docs).flatten = docs ∧
      ((batchSlices cfg.BATCH_SIZE docs).map List.length).sum = docs.length ∧
      (∀ i, i < (batchSlices cfg.BATCH_SIZE docs).length →
        (batchSlices cfg.BATCH_SIZE docs).getD i []
          = (docs.drop (i * cfg.BATCH_SIZE)).take
              (min ((i + 1) * cfg.BATCH_SIZE) docs.length - i * cfg.BATCH_SIZE)) ∧
      (0 < docs.length →
        ∃ last, (batchSlices cfg.BATCH_SIZE docs).getLast? = some last ∧
          last.length = docs.length - cfg.BATCH_SIZE * (b.total_batches - 1)) := by
  obtain ⟨sl2, recs2, hrun⟩ := process_in_batches_noFault cfg behOf tq docs recs hE
  refine ⟨_, by rw [hrun], rfl, ?_, batchSlices_flatten _ _ hB,
    batchSlices_sum _ _ hB, ?_, ?_⟩
  · rw [batchSlices_eq_batchDocs, List.map_map, List.map_map]
    rfl
  · intro i hi
    rw [batchSlices_length] at hi
    simp only [batchSlices, List.getD_eq_getElem?_getD, List.getElem?_map,
      List.getElem?_range hi]
    simp [Nat.succ_mul]
  · intro hN
    exact batchSlices_last cfg.BATCH_SIZE docs hB hN

/-- Witness for C2 at a concrete run: five documents in batches of two. -/
theorem C2_batch_partitioning_witness :
    ∃ b, (process_documents_in_batches
        { defaultConfig with BATCH_SIZE := 2 } (fun _ => goodBeh)
        (fun _ => false) true ["a.pdf", "b.pdf", "c.pdf", "d.pdf", "e.pdf"]
        []).outcome = Except.ok (Sum.inr b) ∧ b.total_batches = 3 := by
  obtain ⟨b, hb, hcount, -⟩ := C2_batch_partitioning
    { defaultConfig with BATCH_SIZE := 2 } (fun _ => goodBeh) true
    ["a.pdf", "b.pdf", "c.pdf", "d.pdf", "e.pdf"] [] (by decide) rfl
  exact ⟨b, hb, by rw [hcount]; rfl⟩

/-- C3: the per-item processor is a total function — whatever the
download / convert / upload collaborators do, it hands the worker pool a
result rather than an exception: either the try block completes and its
result is returned unchanged, or the try block raises and the handler
reports the item as a failed result of kind `PROCESSING_ERROR`. -/
theorem C3_item_errors_contained (beh : Behavior) (doc : String) :
    (∃ r fs, tryBlock beh doc = Except.ok (r, fs) ∧
      process_single_document_thread_safe beh doc = (r, fs)) ∨
    (∃ fs, tryBlock beh doc = Except.error fs ∧
      (process_single_document_thread_safe beh doc).1.error_type
        = some ErrorType.PROCESSING_ERROR ∧
      (process_single_document_thread_safe beh doc).1.success = false) := by
  cases h : tryBlock beh doc with
  | ok rfs =>
      left
      exact ⟨rfs.1, rfs.2, by simp [h], by
        simp [process_single_document_thread_safe, h]⟩
  | error fs =>
      right
      refine ⟨fs, rfl, ?_, ?_⟩ <;>
        simp [process_single_document_thread_safe, h, initResult]

/-- Fault run closed form: with batching enabled, an infrastructure
exception in batch `i` (all earlier batches clean) aborts after starting
batches `0..i`, propagates the error (nothing is returned), and still
closes the overall progress bar. -/
theorem process_in_batches_fault (cfg : Config) (behOf : String → Behavior)
    (tq : Bool) (docs : List String) (recs : List FailureRecord) (i : Nat)
    (hE : cfg.ENABLE_BATCH_PROCESSING = true)
    (hi : i < num_batches_of cfg docs) :
    ∃ sl2 recs2,
    process_documents_in_batches cfg behOf (fun j => j == i) tq docs recs =
      { outcome := Except.error ()
        batchesStarted := i + 1
        sleeps := sl2
        overallBarClosed := cfg.ENABLE_PROGRESS_BARS && tq
        tracker := recs2 } := by
  obtain ⟨k, hk⟩ : ∃ k, num_batches_of cfg docs - i = k + 1 :=
    ⟨num_batches_of cfg docs - i - 1, by omega⟩
  have hk1 : num_batches_of cfg docs - i - 1 = k := by omega
  have hsplit : List.range (num_batches_of cfg docs) =
      List.range i ++ i :: List.range' (i + 1) (num_batches_of cfg docs - i - 1) := by
    calc List.range (num_batches_of cfg docs)
        = List.range' 0 (num_batches_of cfg docs) :=
          List.range_eq_range' (num_batches_of cfg docs)
      _ = List.range' 0 (num_batches_of cfg docs - i + i) := by
          rw [Nat.sub_add_cancel (Nat.le_of_lt hi)]
      _ = List.range' 0 i ++ List.range' (0 + i) (num_batches_of cfg docs - i) :=
          (List.range'_append_1 0 i (num_batches_of cfg docs - i)).symm
      _ = List.range i ++ i :: List.range' (i + 1) (num_batches_of cfg docs - i - 1) := by
          rw [Nat.zero_add, ← List.range_eq_range', hk1, hk, List.range'_succ]
  have hclean : ∀ j ∈ List.range i, (j == i) = false := by
    intro j hj
    exact beq_eq_false_iff_ne.mpr (Nat.ne_of_lt (List.mem_range.mp hj))
  obtain ⟨sl2, recs2, hrec⟩ := batchLoop_fault cfg behOf (fun j => j == i) docs
    (num_batches_of cfg docs) i
    (List.range' (i + 1) (num_batches_of cfg docs - i - 1)) (by simp)
    (List.range i)
    { total_documents := docs.length
      total_batches := num_batches_of cfg docs
      successful_conversions := 0
      failed_conversions := 0
      batch_results := [] } recs 0 0 hclean
  refine ⟨sl2, recs2, ?_⟩
  rw [process_documents_in_batches, if_neg (by simp [hE])]
  show
    (let out := batchLoop cfg behOf (fun j => j == i) docs
      (num_batches_of cfg docs) (List.range (num_batches_of cfg docs))
      { total_documents := docs.length
        total_batches := num_batches_of cfg docs
        successful_conversions := 0
        failed_conversions := 0
        batch_results := [] } recs 0 0
     ({ outcome := out.1.map Sum.inr
        batchesStarted := out.2.1
        sleeps := out.2.2.1
        overallBarClosed := cfg.ENABLE_PROGRESS_BARS && tq
        tracker := out.2.2.2 } : BatchRun)) = _
  rw [hsplit, hrec]
  simp [Except.map, List.length_range]

/-- C4 counterexample: at a concrete faulting run the orchestrator
propagates the exception and returns no value at all — contradicting the
claim that the already-collected job statistics are "still finalized and
returned to the caller".  (Batch 0 completes, the fault hits batch 1.) -/
theorem C4_stats_not_returned_cex :
    exceptIsOk (process_documents_in_batches
        { defaultConfig with BATCH_SIZE := 2 } (fun _ => goodBeh)
        (fun j => j == 1) true ["a.pdf", "b.pdf", "c.pdf", "d.pdf"] []).outcome
      = false ∧
    (process_documents_in_batches
        { defaultConfig with BATCH_SIZE := 2 } (fun _ => goodBeh)
        (fun j => j == 1) true ["a.pdf", "b.pdf", "c.pdf", "d.pdf"] []).batchesStarted
      = 2 := by
  constructor <;> decide

/-- C4 (amended): an infrastructure exception in batch `i` starts no batch
after `i`, propagates the error to the caller — so no statistics value is
returned — and the registered cleanup (closing the overall progress
reporter) still runs. -/
theorem C4_infra_error_aborts (cfg : Config) (behOf : String → Behavior)
    (tq : Bool) (docs : List String) (recs : List FailureRecord) (i : Nat)
    (hE : cfg.ENABLE_BATCH_PROCESSING = true)
    (hi : i < num_batches_of cfg docs) :
    (process_documents_in_batches cfg behOf (fun j => j == i) tq docs recs).outcome
      = Except.error () ∧
    (∀ v, (process_documents_in_batches cfg behOf (fun j => j == i) tq docs recs).outcome
      ≠ Except.ok v) ∧
    (process_documents_in_batches cfg behOf (fun j => j == i) tq docs recs).batchesStarted
      = i + 1 ∧
    (process_documents_in_batches cfg behOf (fun j => j == i) tq docs recs).overallBarClosed
      = (cfg.ENABLE_PROGRESS_BARS && tq) := by
  obtain ⟨sl2, recs2, hrun⟩ := process_in_batches_fault cfg behOf tq docs recs i hE hi
  rw [hrun]
  exact ⟨rfl, fun v hv => by simp at hv, rfl, rfl⟩

/-- Witness for the amended C4 at a concrete faulting run. -/
theorem C4_infra_error_aborts_witness :
    (process_documents_in_batches { defaultConfig with BATCH_SIZE := 2 }
        (fun _ => goodBeh) (fun j => j == 1) true
        ["a.pdf", "b.pdf", "c.pdf", "d.pdf"] []).batchesStarted = 2 :=
  (C4_infra_error_aborts { defaultConfig with BATCH_SIZE := 2 }
    (fun _ => goodBeh) true ["a.pdf", "b.pdf", "c.pdf", "d.pdf"] [] 1 rfl
    (by decide)).2.2.1

/-- C5: the code violates the claim — when the download succeeds but the
conversion fails, the item returns a terminal `CONVERSION_FAILED` outcome
while the downloaded temporary file is still on disk: the early `return`
skips the cleanup block, so local artifacts are not deleted on the failure
paths. -/
theorem C5_cleanup_skipped_on_failure :
    (process_single_document_thread_safe convFailBeh "report.docx").1.error_type
      = some ErrorType.CONVERSION_FAILED ∧
    (process_single_document_thread_safe convFailBeh "report.docx").1.success
      = false ∧
    (process_single_document_thread_safe convFailBeh "report.docx").2.tempExists
      = true := by
  refine ⟨?_, ?_, ?_⟩ <;> decide

/-- C6: with multi-threading enabled, a document list below the
`MIN_FILES_FOR_MULTI_THREADING` threshold is processed on the sequential
path with a reported worker count of 1; otherwise the reported worker
count is `min MAX_WORKER_THREADS N`. -/
theorem C6_worker_count_selection (cfg : Config) (behOf : String → Behavior)
    (docs : List String) (recs : List FailureRecord)
    (hmt : cfg.ENABLE_MULTI_THREADING = true) :
    (docs.length < cfg.MIN_FILES_FOR_MULTI_THREADING →
      process_documents_parallel cfg behOf docs recs
        = process_documents_sequential behOf docs recs ∧
      (process_documents_parallel cfg behOf docs recs).1.thread_count = 1) ∧
    (cfg.MIN_FILES_FOR_MULTI_THREADING ≤ docs.length →
      (process_documents_parallel cfg behOf docs recs).1.thread_count
        = min cfg.MAX_WORKER_THREADS docs.length) := by
  constructor
  · intro h
    have heq : process_documents_parallel cfg behOf docs recs
        = process_documents_sequential behOf docs recs := by
      rw [process_documents_parallel, if_pos (Or.inr h)]
    refine ⟨heq, ?_⟩
    rw [heq, process_documents_sequential]
  · intro h
    have hcond : ¬(cfg.ENABLE_MULTI_THREADING = false ∨
        docs.length < cfg.MIN_FILES_FOR_MULTI_THREADING) := by
      rintro (hc | hc)
      · rw [hmt] at hc; exact absurd hc (by simp)
      · omega
    rw [process_documents_parallel, if_neg hcond]

/-- Witness for C6: one document forces the sequential path; five documents
with the default limit of 10 workers report five workers. -/
theorem C6_worker_count_selection_witness :
    (process_documents_parallel defaultConfig (fun _ => goodBeh)
      ["a.pdf"] []).1.thread_count = 1 ∧
    (process_documents_parallel defaultConfig (fun _ => goodBeh)
      ["a.pdf", "b.pdf", "c.pdf", "d.pdf", "e.pdf"] []).1.thread_count = 5 := by
  constructor
  · exact ((C6_worker_count_selection defaultConfig (fun _ => goodBeh)
      ["a.pdf"] [] rfl).1 (by decide)).2
  · have h := (C6_worker_count_selection defaultConfig (fun _ => goodBeh)
      ["a.pdf", "b.pdf", "c.pdf", "d.pdf", "e.pdf"] [] rfl).2 (by decide)
    rw [h]
    decide

/-- `filterMap` over a list where each element either yields nothing or the
image of a recognizable subset. -/
theorem filterMap_eq_filter_map {α β : Type} (f : α → Option β) (p : α → Bool)
    (g : α → β) (l : List α)
    (h : ∀ a ∈ l, f a = if p a then some (g a) else none) :
    l.filterMap f = (l.filter p).map g := by
  induction l with
  | nil => rfl
  | cons a rest ih =>
      have ha := h a (List.mem_cons_self a rest)
      have hrest := ih (fun b hb => h b (List.mem_cons_of_mem a hb))
      cases hp : p a <;>
        simp [List.filterMap_cons, List.filter_cons, ha, hp, hrest]

/-- Complementary filter lengths add to the list length. -/
theorem filter_not_length_add {α : Type} (p : α → Bool) (l : List α) :
    (l.filter p).length + (l.filter (fun a => !p a)).length = l.length := by
  induction l with
  | nil => rfl
  | cons a rest ih => cases hp : p a <;> simp [List.filter_cons, hp] <;> omega

/-- C7: for every run, the failure tracker gains exactly one record per
item that ends in failure — in order, carrying that item's error kind,
message and observed size — and no record for successful items; in
particular, in a run over 1000 documents in which every item either fully
succeeds or fails its download, with exactly 3 download failures, the
totals are 997 successes and 3 failures and the tracker gains exactly 3
records of kind `DOWNLOAD_FAILED`. -/
theorem C7_download_failure_accounting (cfg : Config)
    (behOf : String → Behavior) (docs : List String)
    (recs : List FailureRecord) :
    ((process_documents_parallel cfg behOf docs recs).2 = recs ++
      (docs.filter (fun d => !itemSuccess behOf d)).map (fun d =>
        { filename := (process_single_document_thread_safe (behOf d) d).1.filename
          error_type := (process_single_document_thread_safe (behOf d) d).1.error_type
          error_message :=
            (process_single_document_thread_safe (behOf d) d).1.error_message
          file_size_bytes := (process_single_document_thread_safe (behOf d) d).1.file_size
          attempt_count := 1 })) ∧
    ((∀ d ∈ docs, behOf d = goodBeh ∨ behOf d = dlFailBeh) →
      docs.length = 1000 →
      (docs.filter (fun d => behOf d == dlFailBeh)).length = 3 →
      (process_documents_parallel cfg behOf docs recs).1.successful_conversions
        = 997 ∧
      (process_documents_parallel cfg behOf docs recs).1.failed_conversions = 3 ∧
      ∃ new, (process_documents_parallel cfg behOf docs recs).2 = recs ++ new ∧
        new.length = 3 ∧
        ∀ rec ∈ new, rec.error_type = some ErrorType.DOWNLOAD_FAILED) := by
  constructor
  · rw [process_documents_parallel_eq]
    show recs ++ docs.filterMap (itemFailureRecord behOf) = recs ++ _
    congr 1
    apply filterMap_eq_filter_map
    intro d _
    cases h : itemSuccess behOf d
    · rw [itemFailureRecord_of_failure h]
      simp
    · rw [itemFailureRecord_of_success h]
      simp
  · intro hbeh hN hbad
    have hpt : ∀ d ∈ docs, itemSuccess behOf d = !(behOf d == dlFailBeh) := by
      intro d hd
      rcases hbeh d hd with hg | hb
      · rw [itemSuccess_of_good hg, hg]; decide
      · rw [(item_of_dlFail hb).1, hb]; decide
    have hfilt : docs.filter (fun d => itemSuccess behOf d)
        = docs.filter (fun d => !(behOf d == dlFailBeh)) :=
      List.filter_congr hpt
    have hfilt2 : docs.filter (fun d => !itemSuccess behOf d)
        = docs.filter (fun d => behOf d == dlFailBeh) := by
      apply List.filter_congr
      intro d hd
      rw [hpt d hd, Bool.not_not]
    have hrecs : docs.filterMap (itemFailureRecord behOf)
        = (docs.filter (fun d => behOf d == dlFailBeh)).map dlFailRecordOf := by
      apply filterMap_eq_filter_map
      intro d hd
      rcases hbeh d hd with hg | hb
      · rw [itemFailureRecord_of_success (itemSuccess_of_good hg), hg]
        have hne : (goodBeh == dlFailBeh) = false := by decide
        simp [hne]
      · rw [(item_of_dlFail hb).2, hb]
        rfl
    have hadd := filter_not_length_add (fun d => behOf d == dlFailBeh) docs
    rw [process_documents_parallel_eq]
    refine ⟨?_, ?_, ?_⟩
    · show (docs.filter (fun d => itemSuccess behOf d)).length = 997
      rw [hfilt]
      omega
    · show (docs.filter (fun d => !itemSuccess behOf d)).length = 3
      rw [hfilt2]
      exact hbad
    · refine ⟨(docs.filter (fun d => behOf d == dlFailBeh)).map dlFailRecordOf,
        ?_, ?_, ?_⟩
      · show recs ++ docs.filterMap (itemFailureRecord behOf) = _
        rw [hrecs]
      · rw [List.length_map]
        exact hbad
      · intro rec hrec
        obtain ⟨d, -, hd2⟩ := List.mem_map.mp hrec
        rw [← hd2]
        rfl

/-- Witness for C7: 997 items that fully succeed plus 3 whose download
fails, discharging the scenario hypotheses of the second clause. -/
theorem C7_download_failure_accounting_witness :
    (process_documents_parallel defaultConfig
      (fun d => if d = "bad.pdf" then dlFailBeh else goodBeh)
      (List.replicate 997 "good.pdf" ++ List.replicate 3 "bad.pdf")
      []).1.successful_conversions = 997 ∧
    (process_documents_parallel defaultConfig
      (fun d => if d = "bad.pdf" then dlFailBeh else goodBeh)
      (List.replicate 997 "good.pdf" ++ List.replicate 3 "bad.pdf")
      []).1.failed_conversions = 3 := by
  have h := (C7_download_failure_accounting defaultConfig
    (fun d => if d = "bad.pdf" then dlFailBeh else goodBeh)
    (List.replicate 997 "good.pdf" ++ List.replicate 3 "bad.pdf") []).2
    (by
      intro d hd
      rcases List.mem_append.mp hd with hmem | hmem
      · left; rw [List.eq_of_mem_replicate hmem]; decide
      · right; rw [List.eq_of_mem_replicate hmem]; decide)
    (by simp only [List.length_append, List.length_replicate])
    (by
      rw [List.filter_append, List.filter_replicate, List.filter_replicate]
      have h1 : ((if ("good.pdf" : String) = "bad.pdf" then dlFailBeh else goodBeh)
          == dlFailBeh) = false := by decide
      have h2 : ((if ("bad.pdf" : String) = "bad.pdf" then dlFailBeh else goodBeh)
          == dlFailBeh) = true := by decide
      rw [h1, h2]
      simp)
  exact ⟨h.1, h.2.1⟩

/-- C8: with batch processing disabled, the orchestrator is exactly one
parallel pass over the whole list — same returned statistics dict and same
tracker effect — with no batch started, no inter-batch sleep, and no
overall progress bar. -/
theorem C8_batching_disabled_single_pass (cfg : Config)
    (behOf : String → Behavior) (fault : Nat → Bool) (tq : Bool)
    (docs : List String) (recs : List FailureRecord)
    (h : cfg.ENABLE_BATCH_PROCESSING = false) :
    process_documents_in_batches cfg behOf fault tq docs recs =
      { outcome := Except.ok (Sum.inl
          (process_documents_parallel cfg behOf docs recs).1)
        batchesStarted := 0
        sleeps := 0
        overallBarClosed := false
        tracker := (process_documents_parallel cfg behOf docs recs).2 } := by
  rw [process_documents_in_batches, if_pos h]

/-- Witness for C8 at a concrete disabled-batching run. -/
theorem C8_batching_disabled_single_pass_witness :
    process_documents_in_batches
        { defaultConfig with ENABLE_BATCH_PROCESSING := false }
        (fun _ => goodBeh) (fun _ => false) true ["a.pdf"] [] =
      { outcome := Except.ok (Sum.inl
          (process_documents_parallel
            { defaultConfig with ENABLE_BATCH_PROCESSING := false }
            (fun _ => goodBeh) ["a.pdf"] []).1)
        batchesStarted := 0
        sleeps := 0
        overallBarClosed := false
        tracker := (process_documents_parallel
          { defaultConfig with ENABLE_BATCH_PROCESSING := false }
          (fun _ => goodBeh) ["a.pdf"] []).2 } :=
  C8_batching_disabled_single_pass _ (fun _ => goodBeh) (fun _ => false) true
    ["a.pdf"] [] rfl

/-- C9 counterexample: the query "abc" is a substring of the stored
filename "abc.pdf" — the spec's substring filter would return the record —
but `get_failed_conversions_by_filename` compares for equality and returns
nothing. -/
theorem C9_substring_filter_cex :
    get_failed_conversions_by_filename [cexRecord] "abc" = [] ∧
    strContainsSub cexRecord.filename "abc" = true ∧
    filter_by_filename_substring [cexRecord] "abc" = [cexRecord] := by
  refine ⟨?_, ?_, ?_⟩ <;> decide

/-- C9 (amended): the filename query returns exactly the records whose
filename **equals** the query string (not substring containment). -/
theorem C9_filename_filter_exact (records : List FailureRecord) (q : String)
    (r : FailureRecord) :
    r ∈ get_failed_conversions_by_filename records q ↔
      r ∈ records ∧ r.filename = q := by
  simp [get_failed_conversions_by_filename, List.mem_filter]

/-- C10: with the default (batching-enabled) configuration, the estimate
for zero documents reports zero batches and a negative duration of exactly
`-BATCH_DELAY_SECONDS` seconds, because `(num_batches - 1)` is applied even
when `num_batches` is 0. -/
theorem C10_estimate_empty_negative :
    ∃ e, get_batch_processing_estimate defaultConfig 0 = Sum.inr e ∧
      e.estimated_batches = 0 ∧
      e.estimated_time_seconds = -((defaultConfig.BATCH_DELAY_SECONDS : ℚ)) := by
  refine ⟨_, rfl, rfl, ?_⟩
  norm_num [get_batch_processing_estimate, defaultConfig]
